import Mathlib

namespace Startups

/-!
Verification of the aggregation engine of `data-startups-1`.

The repository consists of two Streamlit scripts, `app.py` and
`app2.py`, that load a table of startup projects and produce
cross-tabulated funding reports.  We embed the analytical core
(normalization, bucketization with `pd.cut`, cross-tabulation, filter
composition) shallowly: pandas numeric cells become `Option ℚ`
(`none` models NaN), amounts after `fillna(0)` become `ℚ`, flag columns
after `astype(int)` become `ℤ`, and DataFrame rows become a `Row`
structure.  The ±∞ bin edges of numpy are modelled by an `Edge` type.
-/

/-- A raw spreadsheet cell as seen by `pd.to_numeric(·, errors='coerce')`:
either a numeric value, an unparseable string, or a missing value. -/
inductive RawCell where
  | num (q : ℚ)
  | str (s : String)
  | missing
deriving DecidableEq

/-- `pd.to_numeric(x, errors='coerce')` on one cell: numeric cells pass
through, unparseable strings and missing cells become NaN (`none`). -/
def toNumeric : RawCell → Option ℚ
  | .num q => some q
  | .str _ => none
  | .missing => none

/-- `int(x)` / `astype(int)` truncation of a rational toward zero. -/
def truncToInt (q : ℚ) : ℤ := q.num.tdiv (q.den : ℤ)

/-- Amount coercion in `app.py` line 34:
`pd.to_numeric(df[col], errors='coerce').fillna(0)`. -/
def coerceAmount (c : RawCell) : ℚ := (toNumeric c).getD 0

/-- Flag coercion in `app.py` line 39:
`pd.to_numeric(df[col], errors='coerce').fillna(0).astype(int)`. -/
def coerceFlag (c : RawCell) : ℤ := truncToInt ((toNumeric c).getD 0)

/-- NaN-propagating subtraction of two possibly-missing numbers, as in
pandas column arithmetic (`app.py` lines 46-47, 58). -/
def optSub (a b : Option ℚ) : Option ℚ :=
  match a, b with
  | some x, some y => some (x - y)
  | _, _ => none

/-- A normalized project row, after the coercion loops of
`app.py` lines 29-39: three year columns (`Option ℚ`, `none` = NaN),
four zero-filled amount columns (`ℚ`) and seven integer flag columns. -/
structure Row where
  anneeRCS : Option ℚ
  anneeIncub : Option ℚ
  anneePrimo : Option ℚ
  m2021 : ℚ
  m2022 : ℚ
  m2023 : ℚ
  m2024 : ℚ
  indus : ℤ
  numerique : ℤ
  sante : ℤ
  exogene : ℤ
  endogene : ℤ
  deeptech : ℤ
  lienRech : ℤ
deriving DecidableEq

/-- The amount column `f"Montant {annee} (si >100K)"` of a normalized row
(0 outside the four tabulated years, which are the only ones accessed). -/
def montantOf (r : Row) (y : ℕ) : ℚ :=
  if y = 2021 then r.m2021
  else if y = 2022 then r.m2022
  else if y = 2023 then r.m2023
  else if y = 2024 then r.m2024
  else 0

/-- `annees_levée = [2021, 2022, 2023, 2024]` (`app.py` line 51). -/
def annees_levee : List ℕ := [2021, 2022, 2023, 2024]

/-- A bin edge as passed to `pd.cut`: `-np.inf`, a finite value, or `np.inf`. -/
inductive Edge where
  | ninf
  | fin (q : ℚ)
  | pinf
deriving DecidableEq

/-- `e ≤ v` for an edge `e` and a finite value `v`. -/
def eLE : Edge → ℚ → Bool
  | .ninf, _ => true
  | .fin c, v => decide (c ≤ v)
  | .pinf, _ => false

/-- `v < e` for a finite value `v` and an edge `e`. -/
def vLT : ℚ → Edge → Bool
  | _, .ninf => false
  | v, .fin c => decide (v < c)
  | _, .pinf => true

/-- `age_bins_labels` (`app.py` line 76). -/
def age_bins_labels : List String := ["<1 an", "1-2 ans", "2-3 ans", ">3 ans"]

/-- `age_bins_edges = [-np.inf, 1, 2, 3, np.inf]` (`app.py` line 77). -/
def age_bins_edges : List Edge := [.ninf, .fin 1, .fin 2, .fin 3, .pinf]

/-- `bins_labels` (`app.py` line 93). -/
def bins_labels : List String := ["<500k", "500k-1M", "1M-2M", "2M-5M", ">5M"]

/-- `bins_edges = [-np.inf, 500_000, 1_000_000, 2_000_000, 5_000_000, np.inf]`
(`app.py` line 94). -/
def bins_edges : List Edge :=
  [.ninf, .fin 500000, .fin 1000000, .fin 2000000, .fin 5000000, .pinf]

/-- Bin index chosen by `pd.cut(·, bins, right=False)` for a finite value:
`np.searchsorted(bins, v, side='right') - 1`, i.e. the number of edges
`≤ v`, minus one. -/
def cutIdx (edges : List Edge) (v : ℚ) : ℕ :=
  (edges.countP (fun e => eLE e v)) - 1

/-- `pd.cut(v, bins=edges, labels=labels, right=False)` on one finite
value: the label of the bin the value falls in. -/
def pdCut (edges : List Edge) (labels : List String) (v : ℚ) : Option String :=
  labels.get? (cutIdx edges v)

/-- Membership of a finite value `v` in bucket `i` of an edge list, with the
left-closed / right-open convention of `right=False`:
`edges[i] ≤ v < edges[i+1]` (false when bucket `i` does not exist). -/
def memBucket : List Edge → ℕ → ℚ → Bool
  | lo :: hi :: _, 0, v => eLE lo v && vLT v hi
  | _ :: rest, i + 1, v => memBucket rest i v
  | _, _, _ => false

/-- The rows with a qualifying amount for year `y`:
`df[df[col_lev] > 0]` (the mask `df[col] > 0` of `app.py` lines 55, 82, 99). -/
def qualifRows (df : List Row) (y : ℕ) : List Row :=
  df.filter (fun r => decide ((0:ℚ) < montantOf r y))

/-- One cell of the amount-by-year table `df_tranches_global`
(`app.py` lines 96-102): number of qualifying rows for year `y` whose
amount falls in the bucket labelled `l`
(`pd.cut(...).value_counts().reindex(bins_labels, fill_value=0)`). -/
def trancheCount (df : List Row) (y : ℕ) (l : String) : ℕ :=
  (qualifRows df y).countP
    (fun r => decide (pdCut bins_edges bins_labels (montantOf r y) = some l))

/-- The choice of reference year offered by the radio button `annee_ref`
(`app.py` lines 69-74). -/
inductive RefSel where
  | rcs
  | incub
deriving DecidableEq

/-- The selected reference-year column of a row. -/
def refYearOf : RefSel → Row → Option ℚ
  | .rcs, r => r.anneeRCS
  | .incub, r => r.anneeIncub

/-- `ages = annee_lev - df.loc[mask_lev, annee_ref]` for one row
(`app.py` line 83); `none` when the reference year is NaN. -/
def ageOf (refSel : RefSel) (r : Row) (y : ℕ) : Option ℚ :=
  (refYearOf refSel r).map (fun a => (y : ℚ) - a)

/-- One cell of the age-by-year table `table_age_global`
(`app.py` lines 79-86): qualifying rows for year `y` whose derived age is
known and falls in the age bucket labelled `l`.  A NaN age yields a NaN
category in `pd.cut`, which `value_counts` drops — modelled by the
`Option.bind`. -/
def ageCount (df : List Row) (refSel : RefSel) (y : ℕ) (l : String) : ℕ :=
  (qualifRows df y).countP
    (fun r => decide
      ((ageOf refSel r y).bind
        (fun x => pdCut age_bins_edges age_bins_labels x) = some l))

/-- The column total of the amount-by-year table for year `y`:
`df_tranches_global.sum(axis=0)` at column `y` (`app.py` line 107). -/
def trancheColTotal (df : List Row) (y : ℕ) : ℕ :=
  (bins_labels.map (fun l => trancheCount df y l)).sum

/-- One cell of the percentage table
`df_tranches_global.div(df_tranches_global.sum(axis=0), axis=1).fillna(0) * 100`
(`app.py` line 107).  When the column total is 0 pandas produces `0/0 = NaN`
and `fillna(0)` turns it into 0; in `ℚ` division by 0 yields 0 directly, so
the composite is modelled by plain division. -/
def tranchePct (df : List Row) (y : ℕ) (l : String) : ℚ :=
  ((trancheCount df y l : ℚ) / (trancheColTotal df y : ℚ)) * 100

/-- Python's banker's rounding of a rational to the nearest integer
(ties go to the even integer), as performed by `round(x, 2)` after
scaling. -/
def roundHalfEven (q : ℚ) : ℤ :=
  let f := ⌊q⌋
  let r := q - (f : ℚ)
  if r < 1 / 2 then f
  else if 1 / 2 < r then f + 1
  else if f % 2 = 0 then f else f + 1

/-- `round(x, 2)` of Python on an exact rational. -/
def round2 (q : ℚ) : ℚ := ((roundHalfEven (q * 100) : ℤ) : ℚ) / 100

/-- A displayed mean cell of the summary table: either the sentinel string
`"N/A"` or a numeric value (`app.py` line 62). -/
inductive MeanCell where
  | na
  | val (q : ℚ)
deriving DecidableEq

/-- `nb_projets = mask.sum()` (`app.py` line 56): qualifying-event count
for year `y`. -/
def nbProjets (df : List Row) (y : ℕ) : ℕ := (qualifRows df y).length

/-- `montant_total = int(df.loc[mask, col].sum())` (`app.py` line 57). -/
def montantTotalLeve (df : List Row) (y : ℕ) : ℤ :=
  truncToInt (((qualifRows df y).map (fun r => montantOf r y)).sum)

/-- The per-row gaps `df.loc[mask, "Année de primolevée"] -
df.loc[mask, "Année RCS"]` with NaN entries dropped, as `.mean()`
(skipna) sees them (`app.py` line 58). -/
def ecartsRCS (df : List Row) (y : ℕ) : List ℚ :=
  (qualifRows df y).filterMap (fun r => optSub r.anneePrimo r.anneeRCS)

/-- `ecart_moyen = (...).mean() if nb_projets > 0 else np.nan`
(`app.py` line 58): `none` models NaN (count zero, or all gaps NaN). -/
def ecartMoyen (df : List Row) (y : ℕ) : Option ℚ :=
  if nbProjets df y = 0 then none
  else if (ecartsRCS df y).length = 0 then none
  else some ((ecartsRCS df y).sum / ((ecartsRCS df y).length : ℚ))

/-- The displayed mean cell
`round(ecart_moyen, 2) if not np.isnan(ecart_moyen) else "N/A"`
(`app.py` line 62). -/
def delaiMoyenCell (df : List Row) (y : ℕ) : MeanCell :=
  match ecartMoyen df y with
  | none => .na
  | some q => .val (round2 q)

/-- Modelled from the spec: the phrase "mean of the qualifying amounts"
of the summary-statistics sentence (spec §4.5) — the quantity the claim
says the summary table reports as its mean.  Compare with `ecartMoyen`,
which is what `app.py` actually computes. -/
def montantMoyenClaim (df : List Row) (y : ℕ) : Option ℚ :=
  if nbProjets df y = 0 then none
  else some ((((qualifRows df y).map (fun r => montantOf r y)).sum)
    / (nbProjets df y : ℚ))

/-- `required_columns` (`app.py` lines 14-22). -/
def required_columns : List String :=
  ["Année RCS", "Année entrée incubation", "Année de primolevée",
   "Montant 2021 (si >100K)", "Montant 2022 (si >100K)",
   "Montant 2023 (si >100K)", "Montant 2024 (si >100K)",
   "Indus+Bioéco", "Numérique", "Santé",
   "EXOGENE", "ENDOGENE",
   "Le projet est-il labellisé Deeptech par la BPI ?",
   "Lien recherche publique fr?"]

/-- A raw uploaded table: its column names and its rows, each row a map
from column name to raw cell. -/
structure RawDF where
  columns : List String
  rows : List (String → RawCell)

/-- `missing_cols = [c for c in required_columns if c not in df.columns]`
(`app.py` line 23). -/
def missing_cols (df : RawDF) : List String :=
  required_columns.filter (fun c => decide (c ∉ df.columns))

/-- The coercion loops of `app.py` lines 29-39 applied to one raw row. -/
def normalizeRow (g : String → RawCell) : Row :=
  { anneeRCS := toNumeric (g "Année RCS")
    anneeIncub := toNumeric (g "Année entrée incubation")
    anneePrimo := toNumeric (g "Année de primolevée")
    m2021 := coerceAmount (g "Montant 2021 (si >100K)")
    m2022 := coerceAmount (g "Montant 2022 (si >100K)")
    m2023 := coerceAmount (g "Montant 2023 (si >100K)")
    m2024 := coerceAmount (g "Montant 2024 (si >100K)")
    indus := coerceFlag (g "Indus+Bioéco")
    numerique := coerceFlag (g "Numérique")
    sante := coerceFlag (g "Santé")
    exogene := coerceFlag (g "EXOGENE")
    endogene := coerceFlag (g "ENDOGENE")
    deeptech := coerceFlag (g "Le projet est-il labellisé Deeptech par la BPI ?")
    lienRech := coerceFlag (g "Lien recherche publique fr?") }

/-- The schema gate of `app.py` lines 23-26 followed by the coercion
loops of lines 29-39: `st.error` + `st.stop()` on missing columns
(modelled by `Except.error` carrying `missing_cols`, issued before any
coercion), otherwise the normalized rows. -/
def normalize (df : RawDF) : Except (List String) (List Row) :=
  if missing_cols df ≠ [] then .error (missing_cols df)
  else .ok (df.rows.map normalizeRow)

/-- The tri-state radio choice of `analyse_par_filtre`
(`app.py` line 123): `Tous` / the yes label / the no label. -/
inductive Choix where
  | tous
  | oui
  | non
deriving DecidableEq

/-- The row selection of `analyse_par_filtre` (`app.py` lines 124-129):
`df[df[col] == 1]`, `df[df[col] == 0]`, or the whole table. -/
def filtreRows (df : List Row) (col : Row → ℤ) : Choix → List Row
  | .oui => df.filter (fun r => decide (col r = 1))
  | .non => df.filter (fun r => decide (col r = 0))
  | .tous => df

/-- The three cross-tab tables rendered inside `analyse_par_filtre`
(`app.py` lines 137-160), as total functions label → year → value. -/
structure Tables where
  tAge : String → ℕ → ℕ
  tTranches : String → ℕ → ℕ
  tPct : String → ℕ → ℚ

/-- What one call of `analyse_par_filtre` (`app.py` lines 121-167)
produces: the displayed row count, and the tables — `none` when the
function warns and returns early because the selection is empty
(`app.py` lines 132-134). -/
structure AnalyseReport where
  nbRetenus : ℕ
  tables : Option Tables

/-- `analyse_par_filtre(df_source, filtre_col, ...)` (`app.py`
lines 121-167) for a given radio choice and reference-year choice. -/
def analyse_par_filtre (df : List Row) (col : Row → ℤ) (choix : Choix)
    (refSel : RefSel) : AnalyseReport :=
  let d := filtreRows df col choix
  { nbRetenus := d.length
    tables :=
      if d.length = 0 then none
      else some
        { tAge := fun l y => ageCount d refSel y l
          tTranches := fun l y => trancheCount d y l
          tPct := fun l y => tranchePct d y l } }

/-- The three sector columns of the `filières` multiselect
(`app2.py` lines 57-61). -/
inductive Filiere where
  | indus
  | numerique
  | sante
deriving DecidableEq

/-- The flag column a `Filiere` stands for. -/
def filiereVal : Filiere → Row → ℤ
  | .indus, r => r.indus
  | .numerique, r => r.numerique
  | .sante, r => r.sante

/-- The origin selectbox of `app2.py` line 101. -/
inductive Origine where
  | tous
  | endogene
  | exogene
deriving DecidableEq

/-- The filter selection of the `app2.py` expander (lines 84-105):
selected sectors (possibly none), the two checkboxes and the origin
selectbox. -/
structure FiltreSel where
  filieres : List Filiere
  deeptech : Bool
  lien : Bool
  origine : Origine

/-- The sector criterion: `True` for every row when no sector is selected,
otherwise the OR of `df[col] == 1` over the selected sectors
(`app2.py` lines 87-91). -/
def filPred (sel : FiltreSel) (r : Row) : Bool :=
  decide (sel.filieres = []) || sel.filieres.any (fun f => decide (filiereVal f r = 1))

/-- The deep-tech criterion (`app2.py` lines 93-95), `True` when the
checkbox is off. -/
def dtPred (sel : FiltreSel) (r : Row) : Bool :=
  !sel.deeptech || decide (r.deeptech = 1)

/-- The research-link criterion (`app2.py` lines 97-99). -/
def lienPred (sel : FiltreSel) (r : Row) : Bool :=
  !sel.lien || decide (r.lienRech = 1)

/-- The origin criterion (`app2.py` lines 101-105). -/
def origPred (sel : FiltreSel) (r : Row) : Bool :=
  match sel.origine with
  | .tous => true
  | .endogene => decide (r.endogene = 1)
  | .exogene => decide (r.exogene = 1)

/-- The sequential filter composition of the `app2.py` expander
(lines 84-105): sector mask, then the deep-tech checkbox, then the
research-link checkbox, then the origin selectbox, each step applied only
when active exactly as in the source. -/
def app2Filtre (df : List Row) (sel : FiltreSel) : List Row :=
  let f1 :=
    if sel.filieres = [] then df
    else df.filter (fun r => sel.filieres.any (fun f => decide (filiereVal f r = 1)))
  let f2 := if sel.deeptech then f1.filter (fun r => decide (r.deeptech = 1)) else f1
  let f3 := if sel.lien then f2.filter (fun r => decide (r.lienRech = 1)) else f2
  match sel.origine with
  | .tous => f3
  | .endogene => f3.filter (fun r => decide (r.endogene = 1))
  | .exogene => f3.filter (fun r => decide (r.exogene = 1))

/-- `f"Montant {annee} (si >100K)"`. -/
def montantCol (y : ℕ) : String := "Montant " ++ toString y ++ " (si >100K)"

/-- The `levées` list built by the `iterrows` loop of `app2.py`
lines 30-38: one `(year, amount)` pair per non-null amount cell, with no
zero-filling. -/
def levees (df : RawDF) : List (ℕ × ℚ) :=
  df.rows.flatMap (fun g =>
    annees_levee.filterMap (fun y =>
      (toNumeric (g (montantCol y))).map (fun m => (y, m))))

/-- `count_levées = df_levées.groupby('Année')['Montant'].count()` at
year `y` (`app2.py` line 42): a year with no entry is reported as 0 here
(it is simply absent from the pandas groupby result). -/
def countLevees (df : RawDF) (y : ℕ) : ℕ :=
  ((levees df).filter (fun p => decide (p.1 = y))).length

/-- A sample normalized row: incorporated in 2020, first round of 600000 in
2021 (so the RCS-to-levée gap is exactly 1 year). -/
def rowA : Row :=
  { anneeRCS := some 2020, anneeIncub := some 2020, anneePrimo := some 2021
    m2021 := 600000, m2022 := 0, m2023 := 0, m2024 := 0
    indus := 0, numerique := 1, sante := 0, exogene := 1, endogene := 0
    deeptech := 1, lienRech := 1 }

/-- A sample normalized row whose three sector flags are all 0. -/
def rowB : Row :=
  { anneeRCS := some 2019, anneeIncub := some 2020, anneePrimo := some 2022
    m2021 := 700000, m2022 := 0, m2023 := 0, m2024 := 0
    indus := 0, numerique := 0, sante := 0, exogene := 0, endogene := 1
    deeptech := 0, lienRech := 0 }

/-- A sample normalized row with an unknown (NaN) reference year but a
qualifying 2021 amount. -/
def rowC : Row :=
  { anneeRCS := none, anneeIncub := none, anneePrimo := some 2023
    m2021 := 600000, m2022 := 0, m2023 := 0, m2024 := 0
    indus := 1, numerique := 0, sante := 0, exogene := 0, endogene := 1
    deeptech := 0, lienRech := 1 }

/-- A sample `app2.py` filter selection: `Numérique` sector, the deep-tech
checkbox on, the research-link checkbox off, origin = `Exogène`. -/
def selW : FiltreSel :=
  { filieres := [.numerique], deeptech := true, lien := false
    origine := .exogene }

/-- A raw row whose 2021 amount cell holds the numeric value 0 and whose
other cells hold the numeric value 5. -/
def rawRowD : String → RawCell :=
  fun c => if c = "Montant 2021 (si >100K)" then .num 0 else .num 5

/-- A raw table of one row (`rawRowD`) with all required columns present. -/
def rawDFD : RawDF := { columns := required_columns, rows := [rawRowD] }

theorem memBucket_nil (i : ℕ) (v : ℚ) : memBucket [] i v = false := by
  cases i <;> simp [memBucket]

theorem memBucket_single (e : Edge) (i : ℕ) (v : ℚ) :
    memBucket [e] i v = false := by
  cases i <;> simp [memBucket, memBucket_nil]

theorem cutIdx_age (v : ℚ) :
    cutIdx age_bins_edges v =
      if v < 1 then 0 else if v < 2 then 1 else if v < 3 then 2 else 3 := by
  rcases lt_or_le v 1 with h1 | h1
  · have h2 : v < 2 := by linarith
    have h3 : v < 3 := by linarith
    simp [cutIdx, age_bins_edges, eLE, List.countP_cons, h1, h2, h3,
      not_le.2 h1, not_le.2 h2, not_le.2 h3]
  · rcases lt_or_le v 2 with h2 | h2
    · have h3 : v < 3 := by linarith
      simp [cutIdx, age_bins_edges, eLE, List.countP_cons, h1, h2, h3,
        not_lt.2 h1, not_le.2 h2, not_le.2 h3]
    · rcases lt_or_le v 3 with h3 | h3
      · simp [cutIdx, age_bins_edges, eLE, List.countP_cons, h1, h2, h3,
          not_lt.2 h1, not_lt.2 h2, not_le.2 h3]
      · simp [cutIdx, age_bins_edges, eLE, List.countP_cons, h1, h2, h3,
          not_lt.2 h1, not_lt.2 h2, not_lt.2 h3]

theorem cutIdx_bins (v : ℚ) :
    cutIdx bins_edges v =
      if v < 500000 then 0 else if v < 1000000 then 1
      else if v < 2000000 then 2 else if v < 5000000 then 3 else 4 := by
  rcases lt_or_le v 500000 with h1 | h1
  · have h2 : v < 1000000 := by linarith
    have h3 : v < 2000000 := by linarith
    have h4 : v < 5000000 := by linarith
    simp [cutIdx, bins_edges, eLE, List.countP_cons, h1, h2, h3, h4,
      not_le.2 h1, not_le.2 h2, not_le.2 h3, not_le.2 h4]
  · rcases lt_or_le v 1000000 with h2 | h2
    · have h3 : v < 2000000 := by linarith
      have h4 : v < 5000000 := by linarith
      simp [cutIdx, bins_edges, eLE, List.countP_cons, h1, h2, h3, h4,
        not_lt.2 h1, not_le.2 h2, not_le.2 h3, not_le.2 h4]
    · rcases lt_or_le v 2000000 with h3 | h3
      · have h4 : v < 5000000 := by linarith
        simp [cutIdx, bins_edges, eLE, List.countP_cons, h1, h2, h3, h4,
          not_lt.2 h1, not_lt.2 h2, not_le.2 h3, not_le.2 h4]
      · rcases lt_or_le v 5000000 with h4 | h4
        · simp [cutIdx, bins_edges, eLE, List.countP_cons, h1, h2, h3, h4,
            not_lt.2 h1, not_lt.2 h2, not_lt.2 h3, not_le.2 h4]
        · simp [cutIdx, bins_edges, eLE, List.countP_cons, h1, h2, h3, h4,
            not_lt.2 h1, not_lt.2 h2, not_lt.2 h3, not_lt.2 h4]

theorem memBucket_age_iff (v : ℚ) (i : ℕ) :
    memBucket age_bins_edges i v = true ↔ i = cutIdx age_bins_edges v := by
  have tail : ∀ n, memBucket age_bins_edges (n + 4) v = false := by
    intro n
    simp [age_bins_edges, memBucket, memBucket_single]
  rcases lt_or_le v 1 with h1 | h1
  · have e : cutIdx age_bins_edges v = 0 := by rw [cutIdx_age]; simp [h1]
    rw [e]
    have n1 : ¬ (1:ℚ) ≤ v := not_le.2 h1
    have n2 : ¬ (2:ℚ) ≤ v := by push_neg; linarith
    have n3 : ¬ (3:ℚ) ≤ v := by push_neg; linarith
    match i with
    | 0 => simp [age_bins_edges, memBucket, eLE, vLT, h1]
    | 1 => simp [age_bins_edges, memBucket, eLE, vLT, n1]
    | 2 => simp [age_bins_edges, memBucket, eLE, vLT, n2]
    | 3 => simp [age_bins_edges, memBucket, eLE, vLT, n3]
    | n + 4 => simp [tail n]
  · rcases lt_or_le v 2 with h2 | h2
    · have e : cutIdx age_bins_edges v = 1 := by
        rw [cutIdx_age]; simp [not_lt.2 h1, h2]
      rw [e]
      have n2 : ¬ v < 1 := not_lt.2 h1
      have n3 : ¬ (3:ℚ) ≤ v := by push_neg; linarith
      match i with
      | 0 => simp [age_bins_edges, memBucket, eLE, vLT, n2]
      | 1 => simp [age_bins_edges, memBucket, eLE, vLT, h1, h2]
      | 2 => simp [age_bins_edges, memBucket, eLE, vLT, not_le.2 h2]
      | 3 => simp [age_bins_edges, memBucket, eLE, vLT, n3]
      | n + 4 => simp [tail n]
    · rcases lt_or_le v 3 with h3 | h3
      · have e : cutIdx age_bins_edges v = 2 := by
          rw [cutIdx_age]
          simp [show ¬ v < 1 by push_neg; linarith, not_lt.2 h2, h3]
        rw [e]
        match i with
        | 0 => simp [age_bins_edges, memBucket, eLE, vLT,
            show ¬ v < 1 by push_neg; linarith]
        | 1 => simp [age_bins_edges, memBucket, eLE, vLT, not_lt.2 h2]
        | 2 => simp [age_bins_edges, memBucket, eLE, vLT, h2, h3]
        | 3 => simp [age_bins_edges, memBucket, eLE, vLT, not_le.2 h3]
        | n + 4 => simp [tail n]
      · have e : cutIdx age_bins_edges v = 3 := by
          rw [cutIdx_age]
          simp [show ¬ v < 1 by push_neg; linarith,
            show ¬ v < 2 by push_neg; linarith, not_lt.2 h3]
        rw [e]
        match i with
        | 0 => simp [age_bins_edges, memBucket, eLE, vLT,
            show ¬ v < 1 by push_neg; linarith]
        | 1 => simp [age_bins_edges, memBucket, eLE, vLT,
            show ¬ v < 2 by push_neg; linarith]
        | 2 => simp [age_bins_edges, memBucket, eLE, vLT, not_lt.2 h3]
        | 3 => simp [age_bins_edges, memBucket, eLE, vLT, h3]
        | n + 4 => simp [tail n]

theorem memBucket_bins_iff (v : ℚ) (i : ℕ) :
    memBucket bins_edges i v = true ↔ i = cutIdx bins_edges v := by
  have tail : ∀ n, memBucket bins_edges (n + 5) v = false := by
    intro n
    simp [bins_edges, memBucket, memBucket_single]
  rcases lt_or_le v 500000 with h1 | h1
  · have e : cutIdx bins_edges v = 0 := by rw [cutIdx_bins]; simp [h1]
    rw [e]
    have n1 : ¬ (500000:ℚ) ≤ v := not_le.2 h1
    have n2 : ¬ (1000000:ℚ) ≤ v := by push_neg; linarith
    have n3 : ¬ (2000000:ℚ) ≤ v := by push_neg; linarith
    have n4 : ¬ (5000000:ℚ) ≤ v := by push_neg; linarith
    match i with
    | 0 => simp [bins_edges, memBucket, eLE, vLT, h1]
    | 1 => simp [bins_edges, memBucket, eLE, vLT, n1]
    | 2 => simp [bins_edges, memBucket, eLE, vLT, n2]
    | 3 => simp [bins_edges, memBucket, eLE, vLT, n3]
    | 4 => simp [bins_edges, memBucket, eLE, vLT, n4]
    | n + 5 => simp [tail n]
  · rcases lt_or_le v 1000000 with h2 | h2
    · have e : cutIdx bins_edges v = 1 := by
        rw [cutIdx_bins]; simp [not_lt.2 h1, h2]
      rw [e]
      have n3 : ¬ (2000000:ℚ) ≤ v := by push_neg; linarith
      have n4 : ¬ (5000000:ℚ) ≤ v := by push_neg; linarith
      match i with
      | 0 => simp [bins_edges, memBucket, eLE, vLT, not_lt.2 h1]
      | 1 => simp [bins_edges, memBucket, eLE, vLT, h1, h2]
      | 2 => simp [bins_edges, memBucket, eLE, vLT, not_le.2 h2]
      | 3 => simp [bins_edges, memBucket, eLE, vLT, n3]
      | 4 => simp [bins_edges, memBucket, eLE, vLT, n4]
      | n + 5 => simp [tail n]
    · rcases lt_or_le v 2000000 with h3 | h3
      · have e : cutIdx bins_edges v = 2 := by
          rw [cutIdx_bins]
          simp [show ¬ v < 500000 by push_neg; linarith, not_lt.2 h2, h3]
        rw [e]
        have n4 : ¬ (5000000:ℚ) ≤ v := by push_neg; linarith
        match i with
        | 0 => simp [bins_edges, memBucket, eLE, vLT,
            show ¬ v < 500000 by push_neg; linarith]
        | 1 => simp [bins_edges, memBucket, eLE, vLT, not_lt.2 h2]
        | 2 => simp [bins_edges, memBucket, eLE, vLT, h2, h3]
        | 3 => simp [bins_edges, memBucket, eLE, vLT, not_le.2 h3]
        | 4 => simp [bins_edges, memBucket, eLE, vLT, n4]
        | n + 5 => simp [tail n]
      · rcases lt_or_le v 5000000 with h4 | h4
        · have e : cutIdx bins_edges v = 3 := by
            rw [cutIdx_bins]
            simp [show ¬ v < 500000 by push_neg; linarith,
              show ¬ v < 1000000 by push_neg; linarith, not_lt.2 h3, h4]
          rw [e]
          match i with
          | 0 => simp [bins_edges, memBucket, eLE, vLT,
              show ¬ v < 500000 by push_neg; linarith]
          | 1 => simp [bins_edges, memBucket, eLE, vLT,
              show ¬ v < 1000000 by push_neg; linarith]
          | 2 => simp [bins_edges, memBucket, eLE, vLT, not_lt.2 h3]
          | 3 => simp [bins_edges, memBucket, eLE, vLT, h3, h4]
          | 4 => simp [bins_edges, memBucket, eLE, vLT, not_le.2 h4]
          | n + 5 => simp [tail n]
        · have e : cutIdx bins_edges v = 4 := by
            rw [cutIdx_bins]
            simp [show ¬ v < 500000 by push_neg; linarith,
              show ¬ v < 1000000 by push_neg; linarith,
              show ¬ v < 2000000 by push_neg; linarith, not_lt.2 h4]
          rw [e]
          match i with
          | 0 => simp [bins_edges, memBucket, eLE, vLT,
              show ¬ v < 500000 by push_neg; linarith]
          | 1 => simp [bins_edges, memBucket, eLE, vLT,
              show ¬ v < 1000000 by push_neg; linarith]
          | 2 => simp [bins_edges, memBucket, eLE, vLT,
              show ¬ v < 2000000 by push_neg; linarith]
          | 3 => simp [bins_edges, memBucket, eLE, vLT, not_lt.2 h4]
          | 4 => simp [bins_edges, memBucket, eLE, vLT, h4]
          | n + 5 => simp [tail n]

theorem cutIdx_age_lt (v : ℚ) : cutIdx age_bins_edges v < 4 := by
  rw [cutIdx_age]
  split_ifs <;> omega

theorem cutIdx_bins_lt (v : ℚ) : cutIdx bins_edges v < 5 := by
  rw [cutIdx_bins]
  split_ifs <;> omega

theorem pdCut_age_total (v : ℚ) :
    ∃ l, pdCut age_bins_edges age_bins_labels v = some l ∧ l ∈ age_bins_labels := by
  have h := cutIdx_age_lt v
  refine ⟨age_bins_labels.get ⟨cutIdx age_bins_edges v, by simpa [age_bins_labels] using h⟩, ?_, ?_⟩
  · simp [pdCut, List.get?_eq_get]
  · exact List.get_mem _ _ _

theorem pdCut_bins_total (v : ℚ) :
    ∃ l, pdCut bins_edges bins_labels v = some l ∧ l ∈ bins_labels := by
  have h := cutIdx_bins_lt v
  refine ⟨bins_labels.get ⟨cutIdx bins_edges v, by simpa [bins_labels] using h⟩, ?_, ?_⟩
  · simp [pdCut, List.get?_eq_get]
  · exact List.get_mem _ _ _

theorem sum_map_ite_of_none (labels : List String) :
    (labels.map (fun l => if (none : Option String) = some l then 1 else 0)).sum
      = 0 := by
  induction labels with
  | nil => simp
  | cons l ls ih => simp

theorem sum_map_ite_of_not_mem (labels : List String) (l0 : String)
    (h : l0 ∉ labels) :
    (labels.map (fun l => if some l0 = some l then 1 else 0)).sum = 0 := by
  induction labels with
  | nil => simp
  | cons l ls ih =>
    have hne : l0 ≠ l := fun he => h (by simp [he])
    have hnm : l0 ∉ ls := fun hm => h (List.mem_cons_of_mem _ hm)
    simpa [hne] using ih hnm

theorem sum_map_ite_of_mem (labels : List String) (hnd : labels.Nodup)
    (l0 : String) (hmem : l0 ∈ labels) :
    (labels.map (fun l => if some l0 = some l then 1 else 0)).sum = 1 := by
  induction labels with
  | nil => simp at hmem
  | cons l ls ih =>
    rcases List.mem_cons.1 hmem with he | hm
    · have hnm : l0 ∉ ls := by
        subst he
        exact (List.nodup_cons.1 hnd).1
      rw [List.map_cons, List.sum_cons, sum_map_ite_of_not_mem ls l0 hnm,
        if_pos (by rw [he])]
    · have hne : l0 ≠ l := by
        rintro rfl
        exact (List.nodup_cons.1 hnd).1 hm
      simpa [hne] using ih (List.nodup_cons.1 hnd).2 hm

theorem sum_map_add_counts (labels : List String) (c d : String → ℕ) :
    (labels.map (fun l => c l + d l)).sum
      = (labels.map c).sum + (labels.map d).sum := by
  induction labels with
  | nil => simp
  | cons l ls ih => simp [ih]; omega

/-- Partition counting: if a classifying function sends every row either to
`none` or to some label of a duplicate-free label list, then the per-label
counts sum to the number of rows classified `some`. -/
theorem countP_partition (labels : List String) (hnd : labels.Nodup)
    {α : Type} (g : α → Option String) (rows : List α)
    (hg : ∀ a ∈ rows, ∀ l, g a = some l → l ∈ labels) :
    (labels.map (fun l => rows.countP (fun a => decide (g a = some l)))).sum
      = (rows.filter (fun a => (g a).isSome)).length := by
  induction rows with
  | nil => simp
  | cons a rs ih =>
    have hg' : ∀ b ∈ rs, ∀ l, g b = some l → l ∈ labels :=
      fun b hb => hg b (List.mem_cons_of_mem _ hb)
    have hstep : ∀ l : String,
        (a :: rs).countP (fun b => decide (g b = some l))
          = rs.countP (fun b => decide (g b = some l))
            + (if g a = some l then 1 else 0) := by
      intro l
      simp [List.countP_cons]
    have hmap :
        (labels.map (fun l => (a :: rs).countP (fun b => decide (g b = some l))))
          = labels.map (fun l =>
              rs.countP (fun b => decide (g b = some l))
                + (if g a = some l then 1 else 0)) := by
      exact List.map_congr_left (fun l _ => hstep l)
    rw [hmap, sum_map_add_counts, ih hg']
    cases hga : g a with
    | none =>
      rw [sum_map_ite_of_none labels]
      simp [List.filter_cons, hga]
    | some l0 =>
      have hl0 : l0 ∈ labels := hg a (List.mem_cons_self a rs) l0 hga
      rw [sum_map_ite_of_mem labels hnd l0 hl0]
      simp [List.filter_cons, hga]

theorem bins_labels_nodup : bins_labels.Nodup := by decide

theorem age_bins_labels_nodup : age_bins_labels.Nodup := by decide

/-- C1: for every finite value `v` and each of the two fixed edge sets,
`pd.cut` with `right=False` assigns `v` to exactly one bucket, and bucket
membership is exactly the left-closed/right-open condition
`edges[i] ≤ v < edges[i+1]`; the boundary value 500000 falls in the bucket
`"500k-1M"` (not `"<500k"`), and every negative age falls in `"<1 an"`. -/
theorem claim_C1 (v : ℚ) :
    (∀ i, memBucket age_bins_edges i v = true ↔ i = cutIdx age_bins_edges v) ∧
    (∀ i, memBucket bins_edges i v = true ↔ i = cutIdx bins_edges v) ∧
    (∃! i, memBucket age_bins_edges i v = true) ∧
    (∃! i, memBucket bins_edges i v = true) ∧
    pdCut bins_edges bins_labels (500000 : ℚ) = some "500k-1M" ∧
    (v < 0 → pdCut age_bins_edges age_bins_labels v = some "<1 an") := by
  refine ⟨memBucket_age_iff v, memBucket_bins_iff v, ?_, ?_, ?_, ?_⟩
  · exact ⟨cutIdx age_bins_edges v, (memBucket_age_iff v _).2 rfl,
      fun j hj => (memBucket_age_iff v j).1 hj⟩
  · exact ⟨cutIdx bins_edges v, (memBucket_bins_iff v _).2 rfl,
      fun j hj => (memBucket_bins_iff v j).1 hj⟩
  · decide
  · intro hv
    have h1 : v < 1 := by linarith
    rw [pdCut, cutIdx_age v, if_pos h1]
    rfl

/-- Witness for C1 at `v = -1`. -/
theorem claim_C1_witness :
    (-1 : ℚ) < 0 ∧ pdCut age_bins_edges age_bins_labels (-1 : ℚ) = some "<1 an" :=
  ⟨by norm_num, (claim_C1 (-1)).2.2.2.2.2 (by norm_num)⟩

/-- C2: for every table and every year, the five bucket counts of the
amount-by-year table sum to the number of rows whose amount for that year
is strictly positive (the table is a total function over the five labels,
so absent buckets are 0-filled cells, never omitted). -/
theorem claim_C2 (df : List Row) (y : ℕ) :
    (bins_labels.map (fun l => trancheCount df y l)).sum
      = (df.filter (fun r => decide ((0:ℚ) < montantOf r y))).length := by
  have h := countP_partition bins_labels bins_labels_nodup
    (fun r => pdCut bins_edges bins_labels (montantOf r y)) (qualifRows df y)
    (by
      intro a _ l hl
      obtain ⟨l', hl', hmem⟩ := pdCut_bins_total (montantOf a y)
      simp only at hl
      rw [hl'] at hl
      cases hl
      exact hmem)
  have hall : (qualifRows df y).filter
      (fun a => (pdCut bins_edges bins_labels (montantOf a y)).isSome)
        = qualifRows df y := by
    apply List.filter_eq_self.2
    intro a _
    obtain ⟨l', hl', _⟩ := pdCut_bins_total (montantOf a y)
    simp [hl']
  simp only [trancheCount]
  rw [h, hall]
  rfl

theorem sum_map_div_mul (labels : List String) (c : String → ℕ) (T : ℚ) :
    (labels.map (fun l => ((c l : ℚ) / T) * 100)).sum
      = (((labels.map c).sum : ℕ) : ℚ) / T * 100 := by
  induction labels with
  | nil => simp
  | cons l ls ih =>
    rw [List.map_cons, List.sum_cons, ih, List.map_cons, List.sum_cons]
    push_cast
    ring

theorem trancheCount_le_total (df : List Row) (y : ℕ) (l : String)
    (hl : l ∈ bins_labels) : trancheCount df y l ≤ trancheColTotal df y := by
  apply List.single_le_sum (fun x _ => Nat.zero_le x)
  exact List.mem_map_of_mem _ hl

/-- C3: the percentage view of the amount-by-year table divides each cell
by its column total and multiplies by 100; a zero column total yields a
column of exact zeros (the `0/0 = NaN` cells are `fillna(0)`-ed), and a
nonzero column total yields entries in `[0, 100]` summing to exactly 100
(the model computes in `ℚ`, so the "rounding epsilon" is 0). -/
theorem claim_C3 (df : List Row) (y : ℕ) :
    (trancheColTotal df y = 0 → ∀ l, tranchePct df y l = 0) ∧
    (trancheColTotal df y ≠ 0 →
      ((bins_labels.map (fun l => tranchePct df y l)).sum = 100 ∧
       ∀ l ∈ bins_labels, 0 ≤ tranchePct df y l ∧ tranchePct df y l ≤ 100)) := by
  constructor
  · intro h0 l
    rw [tranchePct, h0]
    norm_num
  · intro hT
    have hTQ : ((trancheColTotal df y : ℕ) : ℚ) ≠ 0 := Nat.cast_ne_zero.2 hT
    have hTpos : (0:ℚ) < ((trancheColTotal df y : ℕ) : ℚ) := by
      have := Nat.pos_of_ne_zero hT
      exact_mod_cast this
    constructor
    · have := sum_map_div_mul bins_labels (fun l => trancheCount df y l)
        ((trancheColTotal df y : ℕ) : ℚ)
      simp only [tranchePct]
      rw [this]
      rw [show (bins_labels.map (fun l => trancheCount df y l)).sum
            = trancheColTotal df y from rfl]
      rw [div_self hTQ]
      norm_num
    · intro l hl
      constructor
      · apply mul_nonneg _ (by norm_num)
        exact div_nonneg (Nat.cast_nonneg _) (Nat.cast_nonneg _)
      · rw [tranchePct]
        have hle : ((trancheCount df y l : ℕ) : ℚ)
            ≤ ((trancheColTotal df y : ℕ) : ℚ) := by
          exact_mod_cast trancheCount_le_total df y l hl
        have : ((trancheCount df y l : ℕ) : ℚ)
            / ((trancheColTotal df y : ℕ) : ℚ) ≤ 1 :=
          (div_le_one hTpos).2 hle
        calc ((trancheCount df y l : ℕ) : ℚ)
              / ((trancheColTotal df y : ℕ) : ℚ) * 100
            ≤ 1 * 100 := by
              apply mul_le_mul_of_nonneg_right this (by norm_num)
          _ = 100 := by norm_num

/-- Witness for C3: the zero-total branch on the empty table, and the
nonzero-total branch on the one-row table `[rowA]` for year 2021. -/
theorem claim_C3_witness :
    tranchePct [] 2021 "<500k" = 0 ∧
    (bins_labels.map (fun l => tranchePct [rowA] 2021 l)).sum = 100 :=
  ⟨(claim_C3 [] 2021).1 (by decide) "<500k",
   ((claim_C3 [rowA] 2021).2 (by decide)).1⟩

theorem qualifRows_rowA : qualifRows [rowA] 2021 = [rowA] := by
  norm_num [qualifRows, montantOf, rowA]

theorem ecartMoyen_rowA : ecartMoyen [rowA] 2021 = some 1 := by
  simp only [ecartMoyen, nbProjets, ecartsRCS, qualifRows_rowA]
  norm_num [optSub, rowA, List.filterMap_cons, List.filterMap_nil]

theorem round2_one : round2 1 = 1 := by
  have h100 : ((1:ℚ) * 100) = ((100 : ℤ) : ℚ) := by norm_num
  have hfloor : ⌊((100 : ℤ) : ℚ)⌋ = 100 := Int.floor_intCast 100
  rw [round2, roundHalfEven, h100, hfloor]
  norm_num

/-- C4 counterexample: on the one-row table `[rowA]` (amount 600000 in
2021, RCS 2020, first round 2021) the summary table's mean cell for 2021
is 1 — the mean RCS→levée delay — while the mean of the qualifying
amounts is 600000.  The claim's "mean of the qualifying amounts" is not
what `app.py` reports. -/
theorem claim_C4_cex :
    delaiMoyenCell [rowA] 2021 = .val 1 ∧
    montantMoyenClaim [rowA] 2021 = some 600000 ∧
    MeanCell.val (1 : ℚ) ≠ MeanCell.val 600000 := by
  refine ⟨?_, ?_, ?_⟩
  · rw [delaiMoyenCell, ecartMoyen_rowA]
    simp [round2_one]
  · simp only [montantMoyenClaim, nbProjets, qualifRows_rowA]
    norm_num [montantOf, rowA]
  · simp only [ne_eq, MeanCell.val.injEq]
    norm_num

/-- C4 amended: the summary statistics table reports the count of
qualifying events and the truncated sum of qualifying amounts, and its
mean column is the mean of the RCS→primolevée year gaps over the
qualifying rows (rounded to 2 decimals), not the mean of the amounts;
when the count is 0 the mean cell is the sentinel `"N/A"`, and the cell
is always either `"N/A"` or a number — never NaN and never an
exception. -/
theorem claim_C4 (df : List Row) (y : ℕ) :
    (nbProjets df y = 0 → delaiMoyenCell df y = .na) ∧
    (∀ q, ecartMoyen df y = some q →
      nbProjets df y ≠ 0 ∧
      q * ((ecartsRCS df y).length : ℚ) = (ecartsRCS df y).sum ∧
      delaiMoyenCell df y = .val (round2 q)) ∧
    (delaiMoyenCell df y = .na ∨ ∃ q, delaiMoyenCell df y = .val (round2 q)) := by
  refine ⟨?_, ?_, ?_⟩
  · intro h0
    rw [delaiMoyenCell, ecartMoyen, if_pos h0]
  · intro q hq
    rw [ecartMoyen] at hq
    by_cases h0 : nbProjets df y = 0
    · rw [if_pos h0] at hq
      exact absurd hq (by simp)
    · rw [if_neg h0] at hq
      by_cases hlen : (ecartsRCS df y).length = 0
      · rw [if_pos hlen] at hq
        exact absurd hq (by simp)
      · rw [if_neg hlen] at hq
        have hqe : (ecartsRCS df y).sum / ((ecartsRCS df y).length : ℚ) = q :=
          Option.some_inj.1 hq
        refine ⟨h0, ?_, ?_⟩
        · rw [← hqe]
          have hc : ((ecartsRCS df y).length : ℚ) ≠ 0 := Nat.cast_ne_zero.2 hlen
          field_simp
        · rw [delaiMoyenCell, ecartMoyen, if_neg h0, if_neg hlen, hqe]
  · rw [delaiMoyenCell]
    cases hm : ecartMoyen df y with
    | none => exact Or.inl rfl
    | some q => exact Or.inr ⟨q, rfl⟩

/-- Witness for C4: the count-0 branch on the empty table and the
nonempty branch on `[rowA]`, whose 2021 mean delay is 1. -/
theorem claim_C4_witness :
    delaiMoyenCell [] 2021 = .na ∧
    delaiMoyenCell [rowA] 2021 = .val (round2 1) :=
  ⟨(claim_C4 [] 2021).1 (by decide),
   (((claim_C4 [rowA] 2021).2.1 1 ecartMoyen_rowA).2.2)⟩

/-- C5 counterexample: filtering the one-row table `[rowB]` (all sector
flags 0) on `Numérique == 1` selects zero rows; `analyse_par_filtre`
reports the count 0 but returns early (`app.py` lines 132-134), so the
report carries **no** age table, amount table, or percentage table —
the claim's "every bucket count in the age and amount tables is 0" is
about tables the report does not contain (and `analyse_par_filtre`
emits no summary means at all). -/
theorem claim_C5_cex :
    (analyse_par_filtre [rowB] (fun r => r.numerique) .oui .rcs).nbRetenus = 0 ∧
    (analyse_par_filtre [rowB] (fun r => r.numerique) .oui .rcs).tables = none := by
  constructor <;> rfl

/-- C5 amended: a filter selection matching zero rows does not fail:
the report shows row count 0 and returns early with no tables emitted;
moreover, had the tables been computed on the empty selection, every
bucket count would be 0 and every summary mean the sentinel `"N/A"`. -/
theorem claim_C5 (df : List Row) (col : Row → ℤ) (choix : Choix)
    (refSel : RefSel) (h : filtreRows df col choix = []) :
    (analyse_par_filtre df col choix refSel).nbRetenus = 0 ∧
    (analyse_par_filtre df col choix refSel).tables = none ∧
    (∀ y l, trancheCount [] y l = 0) ∧
    (∀ y l, ageCount [] refSel y l = 0) ∧
    (∀ y, delaiMoyenCell [] y = .na) := by
  refine ⟨?_, ?_, ?_, ?_, ?_⟩
  · simp [analyse_par_filtre, h]
  · simp [analyse_par_filtre, h]
  · intro y l
    rfl
  · intro y l
    rfl
  · intro y
    rfl

/-- Witness for C5 on the concrete empty selection of `claim_C5_cex`. -/
theorem claim_C5_witness :
    (analyse_par_filtre [rowB] (fun r => r.numerique) .oui .rcs).tables = none ∧
    delaiMoyenCell [] 2021 = .na := by
  obtain ⟨_, h2, _, _, h5⟩ :=
    claim_C5 [rowB] (fun r => r.numerique) .oui .rcs (by rfl)
  exact ⟨h2, h5 2021⟩

/-- C6: if any required column is absent, normalization fails (before any
coercion — the error constructor carries no coerced data), and the
failure carries exactly the required columns absent from the table; if no
required column is missing, normalization succeeds. -/
theorem claim_C6 (df : RawDF) :
    (missing_cols df ≠ [] → normalize df = .error (missing_cols df)) ∧
    (∀ c, c ∈ missing_cols df ↔ (c ∈ required_columns ∧ c ∉ df.columns)) ∧
    (missing_cols df = [] → ∃ rows, normalize df = .ok rows) := by
  refine ⟨?_, ?_, ?_⟩
  · intro h
    rw [normalize, if_pos h]
  · intro c
    simp [missing_cols, List.mem_filter]
  · intro h
    refine ⟨df.rows.map normalizeRow, ?_⟩
    rw [normalize, if_neg (by simp [h])]

/-- Witness for C6: a table with no columns fails with the full required
list; a table with exactly the required columns succeeds. -/
theorem claim_C6_witness :
    normalize { columns := [], rows := [] }
      = .error (missing_cols { columns := [], rows := [] }) ∧
    ("Année RCS" ∈ missing_cols { columns := [], rows := [] }) ∧
    (∃ rows, normalize { columns := required_columns, rows := [] } = .ok rows) :=
  ⟨(claim_C6 _).1 (by decide),
   ((claim_C6 _).2.1 "Année RCS").2 ⟨by decide, by decide⟩,
   (claim_C6 _).2.2 (by decide)⟩

theorem truncToInt_zero : truncToInt 0 = 0 := by
  rw [truncToInt, Rat.num_ofNat]
  exact Int.zero_tdiv _

/-- C7: the normalizer's cell coercions — year cells parse to a number or
to unknown (`none`), never defaulting to 0; amount cells default
unparseable/missing to 0; flag cells default to 0 and are truncated
toward zero to integers; unknown years propagate as missing through the
gap arithmetic; and a zero amount is never a qualifying event. -/
theorem claim_C7 :
    (∀ s, toNumeric (.str s) = none) ∧
    toNumeric .missing = none ∧
    (∀ q, toNumeric (.num q) = some q) ∧
    (∀ c, toNumeric c = some 0 → c = .num 0) ∧
    (∀ s, coerceAmount (.str s) = 0) ∧
    coerceAmount .missing = 0 ∧
    (∀ q, coerceAmount (.num q) = q) ∧
    (∀ s, coerceFlag (.str s) = 0) ∧
    coerceFlag .missing = 0 ∧
    (∀ q, coerceFlag (.num q) = truncToInt q) ∧
    (truncToInt (5/2 : ℚ) = 2 ∧ truncToInt (-(5/2) : ℚ) = -2) ∧
    (∀ o : Option ℚ, optSub none o = none ∧ optSub o none = none) ∧
    (∀ (df : List Row) (r : Row) (y : ℕ), montantOf r y = 0 →
      r ∉ qualifRows df y) := by
  refine ⟨fun s => rfl, rfl, fun q => rfl, ?_, fun s => rfl, rfl, fun q => rfl,
    fun s => truncToInt_zero, truncToInt_zero, fun q => rfl, ⟨?_, ?_⟩, ?_, ?_⟩
  · intro c hc
    cases c with
    | num q =>
      simp only [toNumeric, Option.some_inj] at hc
      rw [hc]
    | str s => exact absurd hc (by simp [toNumeric])
    | missing => exact absurd hc (by simp [toNumeric])
  · norm_num [truncToInt]
    rfl
  · norm_num [truncToInt]
    rfl
  · intro o
    exact ⟨rfl, by cases o <;> rfl⟩
  · intro df r y h0
    rw [qualifRows]
    intro hmem
    have := (List.mem_filter.1 hmem).2
    rw [h0] at this
    simp at this

/-- Witness for C7: the never-0 rule applied at the cell `.num 0` and the
no-qualifying-event rule applied at `rowB`, whose 2022 amount is 0. -/
theorem claim_C7_witness :
    RawCell.num 0 = RawCell.num 0 ∧ rowB ∉ qualifRows [rowB] 2022 :=
  ⟨claim_C7.2.2.2.1 (.num 0) rfl,
   claim_C7.2.2.2.2.2.2.2.2.2.2.2.2 [rowB] rowB 2022 (by norm_num [montantOf, rowB])⟩

theorem foldl_filter_eq (df : List Row) (ps : List (Row → Bool)) :
    List.foldl (fun d p => d.filter p) df ps
      = df.filter (fun r => ps.all (fun p => p r)) := by
  induction ps generalizing df with
  | nil => simp
  | cons p ps ih =>
    rw [List.foldl_cons, ih, List.filter_filter]
    apply List.filter_congr
    intro r _
    exact Bool.and_comm _ _

theorem all_apply_perm (r : Row) (ps qs : List (Row → Bool)) (h : ps.Perm qs) :
    ps.all (fun p => p r) = qs.all (fun p => p r) := by
  rw [Bool.eq_iff_iff]
  simp only [List.all_eq_true]
  constructor
  · intro hp p hq
    exact hp p (h.mem_iff.2 hq)
  · intro hq p hp
    exact hq p (h.mem_iff.1 hp)

theorem app2Filtre_eq_filter (df : List Row) (sel : FiltreSel) :
    app2Filtre df sel
      = df.filter (fun r =>
          filPred sel r && dtPred sel r && lienPred sel r && origPred sel r) := by
  have h1 : (if sel.filieres = [] then df
      else df.filter (fun r => sel.filieres.any (fun f => decide (filiereVal f r = 1))))
        = df.filter (fun r => filPred sel r) := by
    split_ifs with hf
    · simp [filPred, hf]
    · apply List.filter_congr
      intro r _
      simp [filPred, hf]
  have h2 : ∀ l : List Row,
      (if sel.deeptech then l.filter (fun r => decide (r.deeptech = 1)) else l)
        = l.filter (fun r => dtPred sel r) := by
    intro l
    cases hd : sel.deeptech
    · simp [dtPred, hd]
    · simp only [if_pos]
      apply List.filter_congr
      intro r _
      simp [dtPred, hd]
  have h3 : ∀ l : List Row,
      (if sel.lien then l.filter (fun r => decide (r.lienRech = 1)) else l)
        = l.filter (fun r => lienPred sel r) := by
    intro l
    cases hd : sel.lien
    · simp [lienPred, hd]
    · simp only [if_pos]
      apply List.filter_congr
      intro r _
      simp [lienPred, hd]
  have h4 : ∀ l : List Row,
      (match sel.origine with
        | .tous => l
        | .endogene => l.filter (fun r => decide (r.endogene = 1))
        | .exogene => l.filter (fun r => decide (r.exogene = 1)))
        = l.filter (fun r => origPred sel r) := by
    intro l
    cases ho : sel.origine
    · simp [origPred, ho]
    · apply List.filter_congr
      intro r _
      simp [origPred, ho]
    · apply List.filter_congr
      intro r _
      simp [origPred, ho]
  rw [app2Filtre]
  rw [h1, h2, h3, h4, List.filter_filter, List.filter_filter, List.filter_filter]
  apply List.filter_congr
  intro r _
  simp [Bool.and_assoc, Bool.and_comm, Bool.and_left_comm]

/-- C8: the composed filter predicate is order-independent: applying the
four criteria (sector any-of, deep-tech, research-link, origin) as
sequential filters in any order gives the same row set as one
AND-composed predicate, and `app2.py`'s sequential composition equals
that same set — composition is associative and commutative. -/
theorem claim_C8 (df : List Row) (sel : FiltreSel) (ps : List (Row → Bool))
    (hp : ps.Perm [filPred sel, dtPred sel, lienPred sel, origPred sel]) :
    List.foldl (fun d p => d.filter p) df ps
      = df.filter (fun r =>
          filPred sel r && dtPred sel r && lienPred sel r && origPred sel r) ∧
    app2Filtre df sel
      = df.filter (fun r =>
          filPred sel r && dtPred sel r && lienPred sel r && origPred sel r) := by
  constructor
  · rw [foldl_filter_eq]
    apply List.filter_congr
    intro r _
    rw [all_apply_perm r ps _ hp]
    simp [Bool.and_assoc, Bool.and_comm, Bool.and_left_comm]
  · exact app2Filtre_eq_filter df sel

/-- Witness for C8: the four criteria of the selection `selW` applied in
reversed order on `[rowA, rowB]` coincide with the AND-composed filter. -/
theorem claim_C8_witness :
    List.foldl (fun d p => d.filter p) [rowA, rowB]
        [origPred selW, lienPred selW, dtPred selW, filPred selW]
      = [rowA, rowB].filter (fun r =>
          filPred selW r && dtPred selW r && lienPred selW r && origPred selW r) ∧
    app2Filtre [rowA, rowB] selW
      = [rowA, rowB].filter (fun r =>
          filPred selW r && dtPred selW r && lienPred selW r && origPred selW r) :=
  claim_C8 [rowA, rowB] selW _
    (by
      have h := List.reverse_perm
        [filPred selW, dtPred selW, lienPred selW, origPred selW]
      simpa using h)

/-- C9: a row with an unknown reference year and a qualifying amount for
year `y` contributes to no age bucket — prepending it to any table leaves
every age-bucket count unchanged — yet it still increments the
amount-by-year column total by 1; and the age-bucket counts of a table
sum to the number of qualifying rows with a *known* reference year (so
they can sum to less than the qualifying-row count). -/
theorem claim_C9 (df : List Row) (refSel : RefSel) (y : ℕ) (r : Row)
    (href : refYearOf refSel r = none) (hq : (0:ℚ) < montantOf r y) :
    (∀ l, ageCount (r :: df) refSel y l = ageCount df refSel y l) ∧
    ((bins_labels.map (fun l => trancheCount (r :: df) y l)).sum
       = (bins_labels.map (fun l => trancheCount df y l)).sum + 1) ∧
    ((age_bins_labels.map (fun l => ageCount df refSel y l)).sum
       = ((qualifRows df y).filter
           (fun r => (refYearOf refSel r).isSome)).length) := by
  have hqcons : qualifRows (r :: df) y = r :: qualifRows df y := by
    rw [qualifRows, qualifRows, List.filter_cons_of_pos (by simpa using hq)]
  refine ⟨?_, ?_, ?_⟩
  · intro l
    rw [ageCount, ageCount, hqcons, List.countP_cons]
    have : (ageOf refSel r y).bind
        (fun x => pdCut age_bins_edges age_bins_labels x) = none := by
      rw [ageOf, href]
      rfl
    simp [this]
  · have hstep : ∀ l : String,
        trancheCount (r :: df) y l
          = trancheCount df y l
            + (if pdCut bins_edges bins_labels (montantOf r y) = some l
               then 1 else 0) := by
      intro l
      rw [trancheCount, trancheCount, hqcons, List.countP_cons]
      simp
    have hmap :
        (bins_labels.map (fun l => trancheCount (r :: df) y l))
          = bins_labels.map (fun l =>
              trancheCount df y l
                + (if pdCut bins_edges bins_labels (montantOf r y) = some l
                   then 1 else 0)) :=
      List.map_congr_left (fun l _ => hstep l)
    rw [hmap, sum_map_add_counts]
    obtain ⟨l0, hl0, hmem⟩ := pdCut_bins_total (montantOf r y)
    rw [hl0, sum_map_ite_of_mem bins_labels bins_labels_nodup l0 hmem]
  · have h := countP_partition age_bins_labels age_bins_labels_nodup
      (fun r => (ageOf refSel r y).bind
        (fun x => pdCut age_bins_edges age_bins_labels x))
      (qualifRows df y)
      (by
        intro a _ l hl
        simp only at hl
        cases hra : refYearOf refSel a with
        | none => simp [ageOf, hra] at hl
        | some x =>
          simp only [ageOf, hra, Option.map_some', Option.some_bind] at hl
          obtain ⟨l', hl', hmem⟩ := pdCut_age_total ((y : ℚ) - x)
          rw [hl'] at hl
          cases hl
          exact hmem)
    simp only [ageCount]
    rw [h]
    congr 1
    apply List.filter_congr
    intro a _
    cases hra : refYearOf refSel a with
    | none => simp [ageOf, hra]
    | some x =>
      obtain ⟨l', hl', _⟩ := pdCut_age_total ((y : ℚ) - x)
      simp [ageOf, hra, hl']

/-- Witness for C9 at the row `rowC` (unknown RCS year, amount 600000 in
2021) prepended to the empty table. -/
theorem claim_C9_witness :
    ageCount [rowC] RefSel.rcs 2021 "<1 an" = ageCount [] RefSel.rcs 2021 "<1 an" ∧
    (bins_labels.map (fun l => trancheCount [rowC] 2021 l)).sum
      = (bins_labels.map (fun l => trancheCount [] 2021 l)).sum + 1 := by
  obtain ⟨h1, h2, _⟩ :=
    claim_C9 [] RefSel.rcs 2021 rowC rfl (by norm_num [montantOf, rowC])
  exact ⟨h1 _, h2⟩

/-- C10: the two variants disagree on what a qualifying funding event is.
On the raw table `rawDFD`, whose single row has the numeric value 0 in
the 2021 amount cell, `app.py` (zero-fill then `> 0`) counts 0 events for
2021 while `app2.py` (`pd.notnull`, no zero-fill) counts 1 — so the two
variants' summary tables are not equivalent. -/
theorem claim_C10 :
    nbProjets (rawDFD.rows.map normalizeRow) 2021 = 0 ∧
    countLevees rawDFD 2021 = 1 ∧ (0 : ℕ) ≠ 1 := by
  refine ⟨by decide, by decide, by decide⟩

end Startups

